import Mathlib

/-!
Shallow embedding of the Lambda Docker runtime executor
(src/localstack/services/awslambda/invocation/docker_runtime_executor.py).

Pure helpers (path and image-name derivation, runtime-to-image resolution)
are translated directly as Lean functions.  The stateful executor lifecycle
(start / stop / get_address / invoke) and the class-level pipelines
(prepare_version / cleanup_version) are translated into functions over an
explicit executor state plus a `World` record supplying the outcomes of the
external container-client and endpoint primitives; every external call the
Python code performs is recorded in an effect trace, and a raised Python
exception is an `Except.error` value.
-/

deriving instance DecidableEq for Except

namespace DockerExec

/-- `IMAGE_PREFIX` constant at top of the module. -/
def IMAGE_PREFIX : String := "amazon/aws-lambda-"

/-- `RAPID_ENTRYPOINT` constant: fixed init-binary path inside the container. -/
def RAPID_ENTRYPOINT : String := "/var/rapid/init"

/-- Configuration of a function version: `config.runtime` (an optional string;
`none` models Python `None`, and the code treats `None` and `""` alike via
truthiness checks) and `config.internal_revision`. -/
structure FunctionVersionConfig where
  runtime : Option String
  internal_revision : String
deriving DecidableEq

/-- A function version: `qualified_arn` stands for the string returned by
`function_version.id.qualified_arn()` (and equally by the
`function_version.qualified_arn` property used in log lines). -/
structure FunctionVersion where
  qualified_arn : String
  config : FunctionVersionConfig
deriving DecidableEq

/-- `tempfile.gettempdir()`: fixed for the lifetime of the process; its exact
value is irrelevant to every property proved below. -/
def tempdir : String := "/tmp"

/-- The sanitization applied by `get_path_for_function` and
`get_image_name_for_function`: `.replace(":", "_").replace("$", "_")`.
Both patterns are single characters, so the composition is the character map
sending `:` and `$` to `_`. -/
def sanitizeChar (c : Char) : Char :=
  if c = ':' then '_' else if c = '$' then '_' else c

/-- `arn.replace(":", "_").replace("$", "_")`. -/
def sanitize (s : String) : String := ⟨s.data.map sanitizeChar⟩

/-- Python `str.lower()` (character-wise lowercasing). -/
def lowerString (s : String) : String := ⟨s.data.map Char.toLower⟩

/-- `get_path_for_function`: the staged artifact directory
`{tempdir}/lambda/{sanitized arn}_{internal_revision}/`. -/
def get_path_for_function (fv : FunctionVersion) : String :=
  tempdir ++ "/lambda/" ++ sanitize fv.qualified_arn ++ "_"
    ++ fv.config.internal_revision ++ "/"

/-- `get_code_path_for_function`: the `code` subdirectory of the staged path. -/
def get_code_path_for_function (fv : FunctionVersion) : String :=
  get_path_for_function fv ++ "code"

/-- `get_image_name_for_function`:
`localstack/lambda-{sanitized arn, lowercased}` (no revision component). -/
def get_image_name_for_function (fv : FunctionVersion) : String :=
  "localstack/lambda-" ++ lowerString (sanitize fv.qualified_arn)

/-- Modelled from the spec: the static runtime-to-image mapping table
`IMAGE_MAPPING`, imported from `lambda_models`, a module of this repository
that is not under src/.  The spec describes it as a static table mapping
runtime identifier strings to vendor image postfixes, with `node18` named as
a present entry; the entries below follow that description. -/
def IMAGE_MAPPING : List (String × String) :=
  [("node18", "nodejs:18"),
   ("nodejs16.x", "nodejs:16"),
   ("nodejs14.x", "nodejs:14"),
   ("python3.8", "python:3.8"),
   ("python3.9", "python:3.9"),
   ("java11", "java:11"),
   ("go1.x", "go:1")]

/-- The exceptions the module can raise: `NotImplementedError`,
`ValueError` (unsupported runtime), the module's own
`LambdaRuntimeException` (the spec's `NotReady`), and errors propagated
from the external container-client primitives. -/
inductive LambdaError where
  | notImplemented (msg : String)
  | valueError (msg : String)
  | notReady (msg : String)
  | containerClientError (op : String)
deriving DecidableEq

/-- `NotImplementedError("Custom images are currently not supported")`. -/
def notImplementedMsg : String := "Custom images are currently not supported"

/-- `get_image_for_runtime`: `postfix = IMAGE_MAPPING.get(runtime)`;
`if not postfix: raise ValueError(...)`; else prefix ++ postfix.
Python truthiness makes an empty-string table entry fail as well, hence the
explicit emptiness test. -/
def get_image_for_runtime (runtime : String) : Except LambdaError String :=
  match List.lookup runtime IMAGE_MAPPING with
  | none => .error (.valueError ("Unsupported runtime " ++ runtime ++ "!"))
  | some pfx =>
    if pfx = "" then .error (.valueError ("Unsupported runtime " ++ runtime ++ "!"))
    else .ok ( IMAGE_PREFIX ++ pfx)

/-- `get_image_for_runtime` as called with the optional `config.runtime`
field (line 218 passes it without a None-check; `dict.get(None)` is `None`,
so a missing runtime raises `ValueError("Unsupported runtime None!")`). -/
def get_image_for_runtime_opt (rt : Option String) : Except LambdaError String :=
  match rt with
  | none => .error (.valueError "Unsupported runtime None!")
  | some r => get_image_for_runtime r

/-- Modelled from the spec: the filesystem location of the init binary
returned by `get_runtime_client_path()` via the external installer package
(`awslambda_runtime_package`, not under src/); a fixed path. -/
def runtime_client_path : String := "/usr/lib/localstack/awslambda/aws-lambda-rie"

/-- The generated Dockerfile `LAMBDA_DOCKERFILE.format(base_img, rapid_entrypoint)`. -/
def lambdaDockerfile (base_img : String) : String :=
  "FROM " ++ base_img ++ "\nCOPY aws-lambda-rie " ++ RAPID_ENTRYPOINT
    ++ "\nCOPY code/ /var/task\n"

/-- `ContainerConfiguration` value passed to the container client. -/
structure ContainerConfiguration where
  image_name : String
  name : String
  env_vars : List (String × String)
  network : String
  entrypoint : String
deriving DecidableEq

/-- One observable external call performed by the module: container-client
primitives, executor-endpoint lifecycle calls, filesystem writes, and log
lines. -/
inductive Effect where
  | endpointStart
  | createContainer (cfg : ContainerConfiguration)
  | copyIntoContainer (container : String) (src : String) (dst : String)
  | startContainer (name : String)
  | resolveIPv4 (name : String) (network : String)
  | setEndpointAddress (addr : String)
  | stopContainer (name : String) (timeout : Nat)
  | removeContainer (name : String)
  | endpointShutdown
  | endpointInvoke (payload : List (String × String))
  | logLine (msg : String)
  | copyFile (src : String) (dst : String)
  | chmodExecutable (path : String)
  | writeFile (path : String) (contents : String)
  | buildImage (dockerfilePath : String) (imageName : String)
  | pullImage (name : String)
  | mkdirParents (path : String)
  | unzipArchive (dst : String)
  | rmtree (path : String)
  | removeImage (name : String)
deriving DecidableEq

/-- Outcomes of the external collaborators: the network name supplied by the
network provisioner, the address the container client resolves, and, for each
fallible external primitive, whether the call raises. -/
structure World where
  network : String
  containerIp : String → String → String
  createContainerFails : Bool
  startContainerFails : Bool
  stopContainerFails : Bool
  removeContainerFails : Bool
  endpointShutdownFails : Bool
  buildImageFails : Bool
  rmtreeFails : Bool
  removeImageFails : Bool
  cachedImages : List String

/-- The two configuration values the module reads from `localstack.config`. -/
structure Config where
  LAMBDA_PREBUILD_IMAGES : Bool
  LAMBDA_TRUNCATE_STDOUT : Nat

/-- The mutable state of a `DockerRuntimeExecutor` instance: its id, its
function version, and the optional resolved ip (the owned endpoint's
internals live behind the `Effect` trace). -/
structure ExecutorState where
  id : String
  function_version : FunctionVersion
  ip : Option String
deriving DecidableEq

/-- `__init__`: stores the id and version and sets `self.ip = None`
(the endpoint is constructed but not started). -/
def initExecutor (id : String) (fv : FunctionVersion) : ExecutorState :=
  { id := id, function_version := fv, ip := none }

/-- Python truthiness of the optional `config.runtime` field:
`not function_version.config.runtime` holds for `None` and `""`. -/
def runtimeFalsy : Option String → Bool
  | none => true
  | some r => r = ""

/-- `DockerRuntimeExecutor.get_image`: raises `NotImplementedError` when the
version has no runtime; otherwise the derived per-version image name when
`config.LAMBDA_PREBUILD_IMAGES` is set, else the base runtime image. -/
def get_image (cfg : Config) (s : ExecutorState) : Except LambdaError String :=
  match s.function_version.config.runtime with
  | none => .error (.notImplemented notImplementedMsg)
  | some rt =>
    if rt = "" then .error (.notImplemented notImplementedMsg)
    else if cfg.LAMBDA_PREBUILD_IMAGES then
      .ok (get_image_name_for_function s.function_version)
    else get_image_for_runtime rt

/-- Message of the `LambdaRuntimeException` raised by `get_address`. -/
def notReadyMsg (id : String) : String :=
  "IP address of executor " ++ id ++ " unknown"

/-- `DockerRuntimeExecutor.get_address`: `if not self.ip: raise
LambdaRuntimeException(...)` (truthiness: `None` and `""` both fail). -/
def get_address (s : ExecutorState) : Except LambdaError String :=
  match s.ip with
  | none => .error (.notReady (notReadyMsg s.id))
  | some ip =>
    if ip = "" then .error (.notReady (notReadyMsg s.id)) else .ok ip

/-- `DockerRuntimeExecutor.start`: starts the endpoint, resolves the network,
builds the `ContainerConfiguration` (evaluating `get_image`), creates the
container, copies init binary and staged code in unless pre-building is
enabled, starts the container, resolves and stores the ip, and binds it into
the endpoint.  Any exception propagates with the state reached so far. -/
def start (cfg : Config) (w : World) (env_vars : List (String × String))
    (s : ExecutorState) : Except LambdaError Unit × ExecutorState × List Effect :=
  let tr0 := [Effect.endpointStart]
  match get_image cfg s with
  | .error e => (.error e, s, tr0)
  | .ok image =>
    let containerCfg : ContainerConfiguration :=
      { image_name := image, name := s.id, env_vars := env_vars,
        network := w.network, entrypoint := RAPID_ENTRYPOINT }
    let tr1 := tr0 ++ [Effect.createContainer containerCfg]
    if w.createContainerFails then
      (.error (.containerClientError "create_container_from_config"), s, tr1)
    else
      let tr2 := tr1 ++
        (if cfg.LAMBDA_PREBUILD_IMAGES then []
         else
           [Effect.copyIntoContainer s.id runtime_client_path RAPID_ENTRYPOINT,
            Effect.copyIntoContainer s.id
              (get_code_path_for_function s.function_version ++ "/.") "/var/task"])
      let tr3 := tr2 ++ [Effect.startContainer s.id]
      if w.startContainerFails then
        (.error (.containerClientError "start_container"), s, tr3)
      else
        let ip := w.containerIp s.id w.network
        (.ok (), { s with ip := some ip },
          tr3 ++ [Effect.resolveIPv4 s.id w.network, Effect.setEndpointAddress ip])

/-- Log line emitted when `executor_endpoint.shutdown()` raises inside `stop`. -/
def endpointShutdownLog (s : ExecutorState) : String :=
  "Error while stopping executor endpoint for lambda "
    ++ s.function_version.qualified_arn

/-- `DockerRuntimeExecutor.stop`: stops the container (5s grace), removes it,
then shuts the endpoint down inside `try/except Exception`, logging and
swallowing any endpoint-shutdown error. -/
def stop (w : World) (s : ExecutorState) :
    Except LambdaError Unit × ExecutorState × List Effect :=
  let tr1 := [Effect.stopContainer s.id 5]
  if w.stopContainerFails then
    (.error (.containerClientError "stop_container"), s, tr1)
  else
    let tr2 := tr1 ++ [Effect.removeContainer s.id]
    if w.removeContainerFails then
      (.error (.containerClientError "remove_container"), s, tr2)
    else
      let tr3 := tr2 ++ [Effect.endpointShutdown]
      if w.endpointShutdownFails then
        (.ok (), s, tr3 ++ [Effect.logLine (endpointShutdownLog s)])
      else (.ok (), s, tr3)

/-- Modelled from the spec: `json.dumps` (Python standard library) rendering
of the string-keyed, string-valued payload; used only to build the logged
preview line. -/
def json_dumps (p : List (String × String)) : String :=
  "\x7b" ++ String.intercalate ", "
    (p.map fun kv => "\"" ++ kv.1 ++ "\": \"" ++ kv.2 ++ "\"") ++ "\x7d"

/-- Modelled from the spec: `truncate` from `localstack.utils.strings`
(a module of this repository not under src/): the rendered payload is
truncated to the configured maximum length for the log line, with a marker
appended when truncation occurred. -/
def truncate (s : String) (maxLen : Nat) : String :=
  if s.length > maxLen then s.take maxLen ++ "..." else s

/-- `DockerRuntimeExecutor.invoke`: logs the truncated rendering of the
payload, then forwards the payload itself to `executor_endpoint.invoke`. -/
def invoke (cfg : Config) (payload : List (String × String))
    (s : ExecutorState) : List Effect :=
  [Effect.logLine ("Sending invoke-payload "
      ++ truncate (json_dumps payload) cfg.LAMBDA_TRUNCATE_STDOUT
      ++ " to executor " ++ s.id),
   Effect.endpointInvoke payload]

/-- Log line emitted when `build_image` raises inside `prepare_image`. -/
def buildErrorLog (fv : FunctionVersion) : String :=
  "Error while building prebuilt lambda image for " ++ fv.qualified_arn

/-- `prepare_image`: raises `NotImplementedError` when the version has no
runtime; otherwise copies the init binary, marks it executable, writes the
generated Dockerfile, and calls `build_image` inside `try/except Exception`,
logging and swallowing any build error. -/
def prepare_image (w : World) (target_path : String) (fv : FunctionVersion) :
    Except LambdaError Unit × List Effect :=
  match fv.config.runtime with
  | none => (.error (.notImplemented notImplementedMsg), [])
  | some rt =>
    if rt = "" then (.error (.notImplemented notImplementedMsg), [])
    else
      let tr0 := [Effect.copyFile runtime_client_path runtime_client_path,
                  Effect.chmodExecutable runtime_client_path]
      match get_image_for_runtime rt with
      | .error e => (.error e, tr0)
      | .ok base =>
        let dfPath := target_path ++ "Dockerfile"
        let tr1 := tr0 ++ [Effect.writeFile dfPath (lambdaDockerfile base)]
        let tr2 := tr1 ++ [Effect.buildImage dfPath (get_image_name_for_function fv)]
        if w.buildImageFails then
          (.ok (), tr2 ++ [Effect.logLine (buildErrorLog fv)])
        else (.ok (), tr2)

/-- `DockerRuntimeExecutor.prepare_version`: creates the staged directory and
`code/` subdirectory, extracts the archive, resolves the base image (raising
on an unsupported or missing runtime), pulls it when not cached, and, when
pre-building is enabled, runs `prepare_image`. -/
def prepare_version (cfg : Config) (w : World) (fv : FunctionVersion) :
    Except LambdaError Unit × List Effect :=
  let target := get_path_for_function fv
  let code := get_code_path_for_function fv
  let tr1 := [Effect.mkdirParents target, Effect.mkdirParents code,
              Effect.unzipArchive code]
  match get_image_for_runtime_opt fv.config.runtime with
  | .error e => (.error e, tr1)
  | .ok image_name =>
    let tr2 := tr1 ++
      (if image_name ∈ w.cachedImages then [] else [Effect.pullImage image_name])
    if cfg.LAMBDA_PREBUILD_IMAGES then
      let pi := prepare_image w target fv
      (pi.1, tr2 ++ pi.2)
    else (.ok (), tr2)

/-- Log line emitted when `shutil.rmtree` raises `OSError` inside
`cleanup_version`. -/
def cleanupErrorLog (fv : FunctionVersion) : String :=
  "Could not cleanup function " ++ fv.qualified_arn

/-- `DockerRuntimeExecutor.cleanup_version`: removes the staged directory,
logging and swallowing any `OSError`; when pre-building is enabled it then
removes the derived image with no exception handling of its own. -/
def cleanup_version (cfg : Config) (w : World) (fv : FunctionVersion) :
    Except LambdaError Unit × List Effect :=
  let path := get_path_for_function fv
  let tr1 :=
    if w.rmtreeFails then [Effect.rmtree path, Effect.logLine (cleanupErrorLog fv)]
    else [Effect.rmtree path]
  if cfg.LAMBDA_PREBUILD_IMAGES then
    let tr2 := tr1 ++ [Effect.removeImage (get_image_name_for_function fv)]
    if w.removeImageFails then
      (.error (.containerClientError "remove_image"), tr2)
    else (.ok (), tr2)
  else (.ok (), tr1)

/-- Does a trace contain any `copy_into_container` call? -/
def hasCopyIntoContainer (tr : List Effect) : Bool :=
  tr.any fun e => match e with
    | .copyIntoContainer _ _ _ => true
    | _ => false

/-- Does a trace contain any `create_container_from_config` call? -/
def hasCreateContainer (tr : List Effect) : Bool :=
  tr.any fun e => match e with
    | .createContainer _ => true
    | _ => false

/-- Does a trace contain any `build_image` call? -/
def hasBuildImage (tr : List Effect) : Bool :=
  tr.any fun e => match e with
    | .buildImage _ _ => true
    | _ => false

/-- The payload carried by an `endpointInvoke` effect, if any. -/
def invokedPayload : Effect → Option (List (String × String))
  | .endpointInvoke p => some p
  | _ => none

/-- Sample function version used to instantiate universally quantified
theorems at concrete inputs. -/
def fvSample : FunctionVersion := ⟨"a:F", ⟨some "python3.9", "r1"⟩⟩

/-- Configuration with image pre-building enabled. -/
def cfgPrebuild : Config := ⟨true, 100⟩

/-- Configuration with image pre-building disabled. -/
def cfgNoPrebuild : Config := ⟨false, 100⟩

/-- A world in which every external primitive succeeds. -/
def wOk : World :=
  ⟨"bridge", fun _ _ => "10.0.0.2",
   false, false, false, false, false, false, false, false, []⟩

/-- A world in which only `build_image` raises. -/
def wBuildFail : World := { wOk with buildImageFails := true }

/-- A world in which only `executor_endpoint.shutdown()` raises. -/
def wShutdownFail : World := { wOk with endpointShutdownFails := true }

/-- A world in which `shutil.rmtree` and `remove_image` raise. -/
def wCleanupFail : World := { wOk with rmtreeFails := true, removeImageFails := true }

/-- A world in which only `shutil.rmtree` raises. -/
def wRmtreeFail : World := { wOk with rmtreeFails := true }

/-- When `start` returns `ok`, the resulting state is the input state with
the resolved container address stored in `ip`. -/
lemma start_ok_state (cfg : Config) (w : World) (env : List (String × String))
    (s : ExecutorState) (h : (start cfg w env s).1 = .ok ()) :
    (start cfg w env s).2.1 = { s with ip := some (w.containerIp s.id w.network) } := by
  cases hgi : get_image cfg s with
  | error e => simp [start, hgi] at h
  | ok image =>
    cases hc : w.createContainerFails with
    | true => simp [start, hgi, hc] at h
    | false =>
      cases hs : w.startContainerFails with
      | true => simp [start, hgi, hc, hs] at h
      | false => simp [start, hgi, hc, hs]

/-- `stop` never modifies the executor state record. -/
lemma stop_state_eq (w : World) (s : ExecutorState) : (stop w s).2.1 = s := by
  cases h1 : w.stopContainerFails <;> cases h2 : w.removeContainerFails <;>
    cases h3 : w.endpointShutdownFails <;> simp [stop, h1, h2, h3]

/-- Claim C3: `get_address` fails with the NotReady error
(`LambdaRuntimeException`) whenever no address has been stored — in
particular on a freshly constructed instance, whose `ip` is `none` — and
after a `start` that succeeded and resolved a non-empty address it returns
exactly that address. -/
theorem get_address_before_and_after_start (cfg : Config) (w : World)
    (env : List (String × String)) (eid : String) (fv : FunctionVersion) :
    (initExecutor eid fv).ip = none ∧
    (∀ s : ExecutorState, s.ip = none →
      get_address s = .error (.notReady (notReadyMsg s.id))) ∧
    ((start cfg w env (initExecutor eid fv)).1 = .ok () →
      w.containerIp eid w.network ≠ "" →
      get_address (start cfg w env (initExecutor eid fv)).2.1 =
        .ok (w.containerIp eid w.network)) := by
  refine ⟨rfl, ?_, ?_⟩
  · intro s hs
    simp [get_address, hs]
  · intro hok hne
    rw [start_ok_state cfg w env (initExecutor eid fv) hok]
    simp [get_address, initExecutor, hne]

/-- Witness for C3 at a concrete instance and an all-succeeding world. -/
theorem get_address_before_and_after_start_witness :
    get_address (initExecutor "e1" fvSample) =
      .error (.notReady (notReadyMsg "e1")) ∧
    get_address (start cfgPrebuild wOk [] (initExecutor "e1" fvSample)).2.1 =
      .ok "10.0.0.2" :=
  ⟨(get_address_before_and_after_start cfgPrebuild wOk [] "e1" fvSample).2.1
      (initExecutor "e1" fvSample) rfl,
   (get_address_before_and_after_start cfgPrebuild wOk [] "e1" fvSample).2.2
      (by decide) (by decide)⟩

/-- Claim C4: when the container stop and remove steps succeed, `stop`
returns without raising even if the endpoint-shutdown step raises; the
shutdown failure is logged instead of re-raised. -/
theorem stop_swallows_endpoint_shutdown_error (w : World) (s : ExecutorState)
    (h1 : w.stopContainerFails = false) (h2 : w.removeContainerFails = false) :
    (stop w s).1 = .ok () ∧
    (w.endpointShutdownFails = true →
      Effect.logLine (endpointShutdownLog s) ∈ (stop w s).2.2) := by
  cases h3 : w.endpointShutdownFails <;> simp [stop, h1, h2, h3]

/-- Witness for C4 in a world whose endpoint shutdown raises. -/
theorem stop_swallows_endpoint_shutdown_error_witness :
    (stop wShutdownFail (initExecutor "e1" fvSample)).1 = .ok () ∧
    Effect.logLine (endpointShutdownLog (initExecutor "e1" fvSample)) ∈
      (stop wShutdownFail (initExecutor "e1" fvSample)).2.2 :=
  ⟨(stop_swallows_endpoint_shutdown_error wShutdownFail
      (initExecutor "e1" fvSample) rfl rfl).1,
   (stop_swallows_endpoint_shutdown_error wShutdownFail
      (initExecutor "e1" fvSample) rfl rfl).2 rfl⟩

/-- Claim C9: `stop` leaves the stored address unchanged, so `get_address`
after `stop` still returns the address resolved during `start`. -/
theorem stop_preserves_resolved_address (w : World) (s : ExecutorState) :
    ((stop w s).2.1).ip = s.ip ∧
    (∀ a, s.ip = some a → a ≠ "" → get_address (stop w s).2.1 = .ok a) := by
  refine ⟨by rw [stop_state_eq], ?_⟩
  intro a ha hne
  rw [stop_state_eq]
  simp [get_address, ha, hne]

/-- Witness for C9 on a started instance with a concrete stored address. -/
theorem stop_preserves_resolved_address_witness :
    get_address
        (stop wOk { id := "e1", function_version := fvSample,
                    ip := some "10.0.0.2" }).2.1 = .ok "10.0.0.2" :=
  (stop_preserves_resolved_address wOk
      { id := "e1", function_version := fvSample, ip := some "10.0.0.2" }).2
    "10.0.0.2" rfl (by decide)

/-- Claim C10: with no runtime identifier set (Python-falsy: `None` or the
empty string), `get_image` and hence `start` fail with the
`NotImplementedError` about custom images before any container is created,
and `prepare_image` fails the same way before any image build is attempted. -/
theorem missing_runtime_not_implemented (cfg : Config) (w : World)
    (env : List (String × String)) (eid : String) (fv : FunctionVersion)
    (h : runtimeFalsy fv.config.runtime = true) :
    get_image cfg (initExecutor eid fv) = .error (.notImplemented notImplementedMsg) ∧
    (start cfg w env (initExecutor eid fv)).1 =
      .error (.notImplemented notImplementedMsg) ∧
    hasCreateContainer (start cfg w env (initExecutor eid fv)).2.2 = false ∧
    (prepare_image w (get_path_for_function fv) fv).1 =
      .error (.notImplemented notImplementedMsg) ∧
    hasBuildImage (prepare_image w (get_path_for_function fv) fv).2 = false := by
  have hgi : get_image cfg (initExecutor eid fv) =
      .error (.notImplemented notImplementedMsg) := by
    cases hrt : fv.config.runtime with
    | none => simp [get_image, initExecutor, hrt]
    | some r =>
      have hr : r = "" := by
        rw [hrt] at h
        simp [runtimeFalsy] at h
        exact h
      simp [get_image, initExecutor, hrt, hr]
  have hpi : prepare_image w (get_path_for_function fv) fv =
      (.error (.notImplemented notImplementedMsg), []) := by
    cases hrt : fv.config.runtime with
    | none => simp [prepare_image, hrt]
    | some r =>
      have hr : r = "" := by
        rw [hrt] at h
        simp [runtimeFalsy] at h
        exact h
      simp [prepare_image, hrt, hr]
  refine ⟨hgi, ?_, ?_, by rw [hpi], by rw [hpi]; rfl⟩
  · simp [start, hgi]
  · simp [start, hgi, hasCreateContainer]

/-- Witness for C10 at a version with `runtime = None`. -/
theorem missing_runtime_not_implemented_witness :
    get_image cfgPrebuild (initExecutor "e1" ⟨"a:F", ⟨none, "r1"⟩⟩) =
      .error (.notImplemented notImplementedMsg) ∧
    (prepare_image wOk (get_path_for_function ⟨"a:F", ⟨none, "r1"⟩⟩)
        ⟨"a:F", ⟨none, "r1"⟩⟩).1 = .error (.notImplemented notImplementedMsg) :=
  ⟨(missing_runtime_not_implemented cfgPrebuild wOk [] "e1"
      ⟨"a:F", ⟨none, "r1"⟩⟩ rfl).1,
   (missing_runtime_not_implemented cfgPrebuild wOk [] "e1"
      ⟨"a:F", ⟨none, "r1"⟩⟩ rfl).2.2.2.1⟩

/-- In `get_image_for_runtime` an empty runtime string has no table entry. -/
lemma get_image_for_runtime_empty :
    get_image_for_runtime "" = .error (.valueError "Unsupported runtime !") := by
  decide

/-- A value returned by `List.lookup` over an association list of strings is
one of the list's values. -/
lemma lookup_val_mem (l : List (String × String)) (k v : String)
    (h : List.lookup k l = some v) : v ∈ l.map Prod.snd := by
  induction l with
  | nil => simp [List.lookup] at h
  | cons a t ih =>
    rw [List.lookup] at h
    cases hk : (k == a.1) with
    | true =>
      rw [hk] at h
      cases h
      exact List.Mem.head _
    | false =>
      rw [hk] at h
      exact List.mem_cons_of_mem _ (ih h)

/-- Every postfix in the modelled mapping table is non-empty. -/
lemma imageMapping_values_nonempty :
    ∀ v ∈ IMAGE_MAPPING.map Prod.snd, v ≠ "" := by decide

/-- Claim C7: the image resolver returns the fixed prefix concatenated with
the mapped postfix for every runtime present in the mapping table, and fails
with the unsupported-runtime `ValueError` for every runtime with no entry;
it is a pure Lean function, so it has no side effects. -/
theorem get_image_for_runtime_table_contract (rt : String) :
    (∀ pfx, List.lookup rt IMAGE_MAPPING = some pfx →
      get_image_for_runtime rt = .ok ( IMAGE_PREFIX ++ pfx)) ∧
    (List.lookup rt IMAGE_MAPPING = none →
      get_image_for_runtime rt =
        .error (.valueError ("Unsupported runtime " ++ rt ++ "!"))) := by
  constructor
  · intro pfx h
    have hne : pfx ≠ "" :=
      imageMapping_values_nonempty pfx (lookup_val_mem IMAGE_MAPPING rt pfx h)
    simp [get_image_for_runtime, h, hne]
  · intro h
    simp [get_image_for_runtime, h]

/-- Witness for C7 at the present entry `node18` and the absent entry
`unsupported-rt`. -/
theorem get_image_for_runtime_table_contract_witness :
    get_image_for_runtime "node18" = .ok "amazon/aws-lambda-nodejs:18" ∧
    get_image_for_runtime "unsupported-rt" =
      .error (.valueError "Unsupported runtime unsupported-rt!") :=
  ⟨(get_image_for_runtime_table_contract "node18").1 "nodejs:18" (by decide),
   (get_image_for_runtime_table_contract "unsupported-rt").2 (by decide)⟩

/-- Claim C8: `invoke` forwards exactly the payload it was given — the
effect trace delivers precisely one payload to the endpoint and that payload
is the argument itself — while the configured truncation appears only in the
logged rendering. -/
theorem invoke_forwards_payload_unmodified (cfg : Config) (s : ExecutorState)
    (p : List (String × String)) :
    (invoke cfg p s).filterMap invokedPayload = [p] ∧
    Effect.logLine ("Sending invoke-payload "
        ++ truncate (json_dumps p) cfg.LAMBDA_TRUNCATE_STDOUT
        ++ " to executor " ++ s.id) ∈ invoke cfg p s := by
  constructor
  · simp [invoke, invokedPayload, List.filterMap]
  · simp [invoke]

/-- Claim C5: when pre-building is enabled and the image build primitive
raises, `prepare_version` still completes normally; the staged directory,
extracted code, conditional pull and build attempt all remain in the trace,
together with the logged build failure. -/
theorem prepare_version_survives_build_failure (cfg : Config) (w : World)
    (fv : FunctionVersion) (rt base : String)
    (hflag : cfg.LAMBDA_PREBUILD_IMAGES = true) (hbf : w.buildImageFails = true)
    (hrt : fv.config.runtime = some rt)
    (hbase : get_image_for_runtime rt = .ok base) :
    (prepare_version cfg w fv).1 = .ok () ∧
    Effect.mkdirParents (get_path_for_function fv) ∈ (prepare_version cfg w fv).2 ∧
    Effect.unzipArchive (get_code_path_for_function fv) ∈ (prepare_version cfg w fv).2 ∧
    (base ∉ w.cachedImages → Effect.pullImage base ∈ (prepare_version cfg w fv).2) ∧
    Effect.buildImage (get_path_for_function fv ++ "Dockerfile")
      (get_image_name_for_function fv) ∈ (prepare_version cfg w fv).2 ∧
    Effect.logLine (buildErrorLog fv) ∈ (prepare_version cfg w fv).2 := by
  have hne : rt ≠ "" := by
    intro he
    rw [he, get_image_for_runtime_empty] at hbase
    cases hbase
  have hpi : prepare_image w (get_path_for_function fv) fv =
      (.ok (),
       [Effect.copyFile runtime_client_path runtime_client_path,
        Effect.chmodExecutable runtime_client_path,
        Effect.writeFile (get_path_for_function fv ++ "Dockerfile")
          (lambdaDockerfile base),
        Effect.buildImage (get_path_for_function fv ++ "Dockerfile")
          (get_image_name_for_function fv),
        Effect.logLine (buildErrorLog fv)]) := by
    simp [prepare_image, hrt, hne, hbase, hbf]
  have hpv : prepare_version cfg w fv =
      (.ok (),
       ([Effect.mkdirParents (get_path_for_function fv),
         Effect.mkdirParents (get_code_path_for_function fv),
         Effect.unzipArchive (get_code_path_for_function fv)] ++
        (if base ∈ w.cachedImages then [] else [Effect.pullImage base])) ++
       (prepare_image w (get_path_for_function fv) fv).2) := by
    simp [prepare_version, get_image_for_runtime_opt, hrt, hbase, hflag, hpi]
  rw [hpv, hpi]
  refine ⟨rfl, by simp, by simp, ?_, by simp, by simp⟩
  intro hnc
  simp [hnc]

/-- Witness for C5 at a concrete version in a build-failing world. -/
theorem prepare_version_survives_build_failure_witness :
    (prepare_version cfgPrebuild wBuildFail fvSample).1 = .ok () ∧
    Effect.logLine (buildErrorLog fvSample) ∈
      (prepare_version cfgPrebuild wBuildFail fvSample).2 :=
  ⟨(prepare_version_survives_build_failure cfgPrebuild wBuildFail fvSample
      "python3.9" "amazon/aws-lambda-python:3.9" rfl rfl rfl (by decide)).1,
   (prepare_version_survives_build_failure cfgPrebuild wBuildFail fvSample
      "python3.9" "amazon/aws-lambda-python:3.9" rfl rfl rfl (by decide)).2.2.2.2.2⟩

/-- Claim C6: `cleanup_version` logs and swallows a directory-removal error
(the result is `ok` whenever the image removal does not fail), while an
image-removal error under pre-building propagates as an error result. -/
theorem cleanup_version_error_policy (cfg : Config) (w : World)
    (fv : FunctionVersion) :
    (w.rmtreeFails = true →
      Effect.logLine (cleanupErrorLog fv) ∈ (cleanup_version cfg w fv).2) ∧
    (cfg.LAMBDA_PREBUILD_IMAGES = true → w.removeImageFails = true →
      (cleanup_version cfg w fv).1 =
        .error (.containerClientError "remove_image")) ∧
    (cfg.LAMBDA_PREBUILD_IMAGES = false ∨ w.removeImageFails = false →
      (cleanup_version cfg w fv).1 = .ok ()) := by
  refine ⟨?_, ?_, ?_⟩
  · intro h1
    cases h2 : cfg.LAMBDA_PREBUILD_IMAGES <;>
      cases h3 : w.removeImageFails <;>
        simp [cleanup_version, h1, h2, h3]
  · intro h2 h3
    cases h1 : w.rmtreeFails <;> simp [cleanup_version, h1, h2, h3]
  · intro h
    cases h1 : w.rmtreeFails <;> cases h2 : cfg.LAMBDA_PREBUILD_IMAGES <;>
      cases h3 : w.removeImageFails <;>
        simp [cleanup_version, h1, h2, h3] <;> simp [h2, h3] at h
/-- Witness for C6: a failing `rmtree` alone is logged and swallowed, and a
failing image removal under pre-building propagates. -/
theorem cleanup_version_error_policy_witness :
    Effect.logLine (cleanupErrorLog fvSample) ∈
      (cleanup_version cfgPrebuild wCleanupFail fvSample).2 ∧
    (cleanup_version cfgPrebuild wCleanupFail fvSample).1 =
      .error (.containerClientError "remove_image") ∧
    (cleanup_version cfgPrebuild wRmtreeFail fvSample).1 = .ok () :=
  ⟨(cleanup_version_error_policy cfgPrebuild wCleanupFail fvSample).1 rfl,
   (cleanup_version_error_policy cfgPrebuild wCleanupFail fvSample).2.1 rfl rfl,
   (cleanup_version_error_policy cfgPrebuild wRmtreeFail fvSample).2.2 (Or.inr rfl)⟩

/-- Claim C1 counterexample: with pre-building enabled and a failed image
build (`prepare_version` completes and logs the build failure), `start`
still selects the derived per-version image name — not the base runtime
image — and still skips the copy of the init binary and staged code.  The
code consults only the pre-build flag, never whether the pre-build
succeeded. -/
theorem start_uses_prebuilt_name_after_failed_build :
    (prepare_version cfgPrebuild wBuildFail fvSample).1 = .ok () ∧
    Effect.logLine (buildErrorLog fvSample) ∈
      (prepare_version cfgPrebuild wBuildFail fvSample).2 ∧
    get_image cfgPrebuild (initExecutor "e1" fvSample) =
      .ok "localstack/lambda-a_f" ∧
    get_image_for_runtime "python3.9" = .ok "amazon/aws-lambda-python:3.9" ∧
    ("localstack/lambda-a_f" : String) ≠ "amazon/aws-lambda-python:3.9" ∧
    hasCopyIntoContainer
      (start cfgPrebuild wBuildFail [] (initExecutor "e1" fvSample)).2.2 = false := by
  decide

/-- Claim C1 amended: for a version with a declared runtime, the image used
by `start` is the derived per-version image exactly when pre-building is
enabled — regardless of whether the pre-build succeeded — and otherwise the
base runtime image; the copy of the init binary and staged code into the
container is performed exactly when pre-building is disabled. -/
theorem image_selection_and_copy_follow_prebuild_flag (cfg : Config)
    (w : World) (env : List (String × String)) (eid rt : String)
    (fv : FunctionVersion) (hrt : fv.config.runtime = some rt)
    (hne : rt ≠ "") :
    (cfg.LAMBDA_PREBUILD_IMAGES = true →
      get_image cfg (initExecutor eid fv) =
        .ok (get_image_name_for_function fv) ∧
      hasCopyIntoContainer (start cfg w env (initExecutor eid fv)).2.2 = false) ∧
    (cfg.LAMBDA_PREBUILD_IMAGES = false →
      get_image cfg (initExecutor eid fv) = get_image_for_runtime rt ∧
      ((start cfg w env (initExecutor eid fv)).1 = .ok () →
        hasCopyIntoContainer (start cfg w env (initExecutor eid fv)).2.2 = true)) := by
  constructor
  · intro hf
    have hgi : get_image cfg (initExecutor eid fv) =
        .ok (get_image_name_for_function fv) := by
      simp [get_image, initExecutor, hrt, hne, hf]
    refine ⟨hgi, ?_⟩
    cases hc : w.createContainerFails <;> cases hs : w.startContainerFails <;>
      simp [start, hgi, hc, hs, hf, hasCopyIntoContainer]
  · intro hf
    have hgi : get_image cfg (initExecutor eid fv) = get_image_for_runtime rt := by
      simp [get_image, initExecutor, hrt, hne, hf]
    refine ⟨hgi, ?_⟩
    intro hok
    cases hb : get_image_for_runtime rt with
    | error e => rw [hb] at hgi; simp [start, hgi] at hok
    | ok base =>
      rw [hb] at hgi
      cases hc : w.createContainerFails with
      | true => simp [start, hgi, hc] at hok
      | false =>
        cases hs : w.startContainerFails with
        | true => simp [start, hgi, hc, hs] at hok
        | false => simp [start, hgi, hc, hs, hf, hasCopyIntoContainer]

/-- Witness for the amended C1, pre-building enabled, all primitives
succeeding. -/
theorem image_selection_flag_witness :
    get_image cfgPrebuild (initExecutor "e1" fvSample) =
      .ok (get_image_name_for_function fvSample) ∧
    hasCopyIntoContainer
      (start cfgPrebuild wOk [] (initExecutor "e1" fvSample)).2.2 = false :=
  (image_selection_and_copy_follow_prebuild_flag cfgPrebuild wOk [] "e1"
      "python3.9" fvSample rfl (by decide)).1 rfl

/-- Claim C2 counterexample: two distinct (identity, revision) pairs — the
same identity under two different revisions — map to the same derived image
name, because `get_image_name_for_function` does not use the revision. -/
theorem image_name_ignores_revision :
    (⟨"a:F", ⟨some "python3.9", "r1"⟩⟩ : FunctionVersion) ≠
      ⟨"a:F", ⟨some "python3.9", "r2"⟩⟩ ∧
    get_image_name_for_function ⟨"a:F", ⟨some "python3.9", "r1"⟩⟩ =
      get_image_name_for_function ⟨"a:F", ⟨some "python3.9", "r2"⟩⟩ := by
  decide

/-- Cancelling a common prefix and a common suffix of a string
concatenation. -/
lemma append_mid_inj (p r1 r2 s : String) (h : p ++ r1 ++ s = p ++ r2 ++ s) :
    r1 = r2 := by
  have hd : p.data ++ (r1.data ++ s.data) = p.data ++ (r2.data ++ s.data) := by
    have h2 := congrArg String.data h
    simpa [String.data_append] using h2
  have h3 : r1.data = r2.data :=
    List.append_cancel_right (List.append_cancel_left hd)
  exact String.ext h3

/-- Claim C2 amended: the path and image-name derivations are deterministic
pure functions; the derived path separates distinct revisions of the same
identity, but the derived image name depends only on the (sanitized,
lowercased) identity, so all revisions of one identity share an image
name. -/
theorem derived_path_injective_in_revision (arn : String) (rt : Option String)
    (r1 r2 : String) (h : r1 ≠ r2) :
    get_path_for_function ⟨arn, ⟨rt, r1⟩⟩ ≠ get_path_for_function ⟨arn, ⟨rt, r2⟩⟩ ∧
    get_image_name_for_function ⟨arn, ⟨rt, r1⟩⟩ =
      get_image_name_for_function ⟨arn, ⟨rt, r2⟩⟩ := by
  refine ⟨?_, rfl⟩
  intro he
  exact h (append_mid_inj (tempdir ++ "/lambda/" ++ sanitize arn ++ "_") r1 r2 "/" he)

/-- Witness for the amended C2 at a concrete identity and two revisions. -/
theorem derived_path_injective_in_revision_witness :
    get_path_for_function ⟨"a:F", ⟨some "python3.9", "r1"⟩⟩ ≠
      get_path_for_function ⟨"a:F", ⟨some "python3.9", "r2"⟩⟩ ∧
    get_image_name_for_function ⟨"a:F", ⟨some "python3.9", "r1"⟩⟩ =
      get_image_name_for_function ⟨"a:F", ⟨some "python3.9", "r2"⟩⟩ :=
  derived_path_injective_in_revision "a:F" (some "python3.9") "r1" "r2" (by decide)

end DockerExec
